import Mathlib

set_option allowUnsafeReducibility true

attribute [semireducible] Rat.add Rat.mul Rat.div Rat.sub Rat.neg Rat.inv Rat.ofScientific

/-!
Shallow embedding of the data cleaning and aggregation pipeline of app.py
from the socrata-homicidios-accidentes-colombia dashboard.

Modeling conventions:
* a text cell is a list of characters (abbrev Str);
* a data frame is a list of records, one structure per pipeline stage;
* pandas floating point quantities, latitudes and longitudes are rationals,
  a missing cell (NaN) is Option.none;
* unidecode.unidecode and str.upper are modeled character by character on
  the ASCII range plus the Spanish accented letters that occur in the data;
* pandas to_datetime with errors equal to coerce is a total parse function
  returning Option, to_numeric is a parse of optional sign plus digits.
-/

namespace Socrata

abbrev Str := List Char

/-- Character table for unidecode.unidecode restricted to the Spanish
accented letters; every other character is returned unchanged. -/
def unidecodeTable : List (Char × Char) :=
  [('á', 'a'), ('é', 'e'), ('í', 'i'), ('ó', 'o'), ('ú', 'u'), ('ñ', 'n'), ('ü', 'u'),
   ('Á', 'A'), ('É', 'E'), ('Í', 'I'), ('Ó', 'O'), ('Ú', 'U'), ('Ñ', 'N'), ('Ü', 'U')]

def unidecodeChar (c : Char) : Char :=
  match unidecodeTable.find? (fun p => decide (p.1 = c)) with
  | some p => p.2
  | none => c

/-- Character table for Python str.upper on ASCII letters and the Spanish
accented letters; every other character is returned unchanged. -/
def upperTable : List (Char × Char) :=
  [('a', 'A'), ('b', 'B'), ('c', 'C'), ('d', 'D'), ('e', 'E'), ('f', 'F'), ('g', 'G'),
   ('h', 'H'), ('i', 'I'), ('j', 'J'), ('k', 'K'), ('l', 'L'), ('m', 'M'), ('n', 'N'),
   ('o', 'O'), ('p', 'P'), ('q', 'Q'), ('r', 'R'), ('s', 'S'), ('t', 'T'), ('u', 'U'),
   ('v', 'V'), ('w', 'W'), ('x', 'X'), ('y', 'Y'), ('z', 'Z'),
   ('á', 'Á'), ('é', 'É'), ('í', 'Í'), ('ó', 'Ó'), ('ú', 'Ú'), ('ñ', 'Ñ'), ('ü', 'Ü')]

def pyUpperChar (c : Char) : Char :=
  match upperTable.find? (fun p => decide (p.1 = c)) with
  | some p => p.2
  | none => c

def isSpaceChar (c : Char) : Bool :=
  c == ' ' || c == '\t' || c == '\n' || c == '\r'

/-- Python str.strip: drop leading whitespace. -/
def lstripL (l : Str) : Str := l.dropWhile isSpaceChar

/-- Python str.strip: drop trailing whitespace. -/
def rstripL (l : Str) : Str := (l.reverse.dropWhile isSpaceChar).reverse

/-- Python str.strip: drop leading and trailing whitespace. -/
def pyStrip (l : Str) : Str := rstripL (lstripL l)

/-- Python str.replace applied with the literal search text (CT) and an empty
replacement: remove every occurrence, scanning left to right without
overlap. -/
def replaceCT : Str → Str
  | [] => []
  | '(' :: 'C' :: 'T' :: ')' :: rest => replaceCT rest
  | c :: rest => c :: replaceCT rest

/-- True when the list of characters contains the four character marker (CT)
as a contiguous sublist. -/
def containsCT : Str → Bool
  | [] => false
  | '(' :: 'C' :: 'T' :: ')' :: _ => true
  | _ :: rest => containsCT rest

/-- Composite character transform used on the department and municipality
columns: unidecode first, str.upper second. -/
def normChar (c : Char) : Char := pyUpperChar (unidecodeChar c)

/-- Line 31 of app.py: unidecode.unidecode(x).upper().strip() applied to the
departamento column. -/
def normalizeDepartamento (s : Str) : Str :=
  pyStrip (List.map pyUpperChar (List.map unidecodeChar s))

/-- Line 33 of app.py: the whole cell value BOGOTA D.C. is rewritten to
BOGOTA D.C after the character level cleaning of the municipio column. -/
def bogotaFix (v : Str) : Str :=
  if v = "BOGOTA D.C.".data then "BOGOTA D.C".data else v

/-- Lines 32 and 33 of app.py: unidecode, upper, remove the (CT) marker,
strip, then rewrite the literal BOGOTA D.C. cell. -/
def normalizeMunicipio (s : Str) : Str :=
  bogotaFix (pyStrip (replaceCT (List.map pyUpperChar (List.map unidecodeChar s))))

/-- str.upper().str.strip() as used on the armas_medios, genero and cantidad
columns. -/
def upperStrip (s : Str) : Str := pyStrip (List.map pyUpperChar s)

/-- Lines 34 and 35 of app.py: upper, strip, then coalesce the two variant
spellings of the not reported label. -/
def normalizeArmas (s : Str) : Str :=
  if upperStrip s = "NO REPOTADO".data ∨ upperStrip s = "NO REPORTA".data
  then "NO REPORTADO".data else upperStrip s

/-- Line 350 of app.py: the per invocation coalescing of the genero column
inside the chart and table callback. -/
def coalesceGenero (g : Str) : Str :=
  if g = "NO REPOTADO".data ∨ g = "NO REPORTA".data then "NO REPORTADO".data else g

/-- Calendar date as stored in a pandas datetime cell. -/
structure PyDate where
  year : Nat
  month : Nat
  day : Nat
deriving DecidableEq

def isLeap (y : Nat) : Bool :=
  (y % 4 == 0 && y % 100 != 0) || (y % 400 == 0)

def daysInMonth (y m : Nat) : Nat :=
  if m = 2 then (if isLeap y then 29 else 28)
  else if m = 4 ∨ m = 6 ∨ m = 9 ∨ m = 11 then 30
  else 31

def digitVal (c : Char) : Option Nat :=
  if c.isDigit then some (c.toNat - 48) else none

/-- pandas to_datetime with errors equal to coerce on an ISO formatted text
cell: accept YYYY-MM-DD with a valid month and day, return none otherwise. -/
def parseDate (s : Str) : Option PyDate :=
  match s with
  | [y1, y2, y3, y4, '-', m1, m2, '-', d1, d2] =>
    match digitVal y1, digitVal y2, digitVal y3, digitVal y4,
          digitVal m1, digitVal m2, digitVal d1, digitVal d2 with
    | some a, some b, some c, some d, some e, some f, some g, some h =>
      let y := ((a * 10 + b) * 10 + c) * 10 + d
      let m := e * 10 + f
      let dd := g * 10 + h
      if 1 ≤ m ∧ m ≤ 12 ∧ 1 ≤ dd ∧ dd ≤ daysInMonth y m then
        some ⟨y, m, dd⟩
      else none
    | _, _, _, _, _, _, _, _ => none
  | _ => none

def digitChar (n : Nat) : Char := Char.ofNat (48 + n % 10)

def natToStrAux : Nat → Nat → Str
  | 0, _ => []
  | fuel + 1, n =>
    if n < 10 then [digitChar n]
    else natToStrAux fuel (n / 10) ++ [digitChar (n % 10)]

/-- Decimal rendering of a natural number as Python str would produce it;
fuel 6 covers every value that can appear as a year. -/
def natToStr (n : Nat) : Str := natToStrAux 6 n

def digitsVal : Str → Option Nat
  | [] => none
  | [c] => digitVal c
  | c :: rest => do
    let d ← digitVal c
    let r ← digitsVal rest
    pure (d * 10 ^ rest.length + r)

/-- pandas to_numeric with errors equal to coerce, restricted to the integer
literals that occur in the cantidad column: optional sign plus digits. -/
def parseNum (s : Str) : Option ℚ :=
  match s with
  | '-' :: rest => (digitsVal rest).map (fun n => -(n : ℚ))
  | _ => (digitsVal s).map (fun n => (n : ℚ))

/-- One raw record as fetched from the Socrata service, restricted at line 80
of app.py to the seven columns used downstream. -/
structure RawRecord where
  departamento : Str
  municipio : Str
  codigoDane : Str
  armasMedios : Str
  fechaHecho : Str
  genero : Str
  cantidad : Str
deriving DecidableEq

/-- One record after normalize_df, lines 30 to 47 of app.py.  The fecha cell
holds the result of pd.to_datetime with errors equal to coerce. -/
structure NormRecord where
  departamento : Str
  municipio : Str
  codigoDane : Str
  armasMedios : Str
  fechaHecho : Option PyDate
  genero : Str
  cantidad : Str
deriving DecidableEq

/-- Lines 31 to 38 of app.py applied to a single record; the column renaming
of lines 40 to 46 is reflected in the field names of the target schema. -/
def normalizeRecord (r : RawRecord) : NormRecord :=
  { departamento := normalizeDepartamento r.departamento
    municipio := normalizeMunicipio r.municipio
    codigoDane := r.codigoDane
    armasMedios := normalizeArmas r.armasMedios
    fechaHecho := parseDate r.fechaHecho
    genero := upperStrip r.genero
    cantidad := upperStrip r.cantidad }

/-- normalize_df, applied row by row; it never drops a row. -/
def normalize_df (df : List RawRecord) : List NormRecord :=
  df.map normalizeRecord

/-- One record carrying the LATITUDE and LONGITUDE columns; a missing
coordinate cell (NaN) is none. -/
structure CoordRecord extends NormRecord where
  latitude : Option ℚ
  longitude : Option ℚ
deriving DecidableEq

/-- One row of the Municipios reference spreadsheet. -/
structure RefEntry where
  departamento : Str
  municipio : Str
  latitude : Option ℚ
  longitude : Option ℚ
deriving DecidableEq

/-- The rows of the reference table matching the join key of a primary row,
in reference table order. -/
def refMatches (ref : List RefEntry) (r : CoordRecord) : List RefEntry :=
  ref.filter (fun e => decide (e.departamento = r.departamento ∧ e.municipio = r.municipio))

/-- Lines 52 and 53 of app.py: combine_first keeps the primary coordinate
when it is present and falls back to the reference coordinate otherwise,
independently for latitude and longitude. -/
def mergeRow (r : CoordRecord) (e : RefEntry) : CoordRecord :=
  { r with
    latitude := if r.latitude.isSome then r.latitude else e.latitude
    longitude := if r.longitude.isSome then r.longitude else e.longitude }

/-- merge_and_clean_coordinates, lines 49 to 55 of app.py: left join on the
department and municipality pair, then per row coordinate reconciliation.  A
primary row with no matching reference row keeps its own coordinate cells,
matching the NaN cells a left join produces there. -/
def merge_and_clean_coordinates (rows : List CoordRecord) (ref : List RefEntry) :
    List CoordRecord :=
  rows.flatMap (fun r =>
    match refMatches ref r with
    | [] => [r]
    | ms => ms.map (mergeRow r))

/-- remove_missing_coordinates, lines 57 to 59 of app.py: dropna on the
LATITUDE and LONGITUDE columns removes a row when either cell is missing. -/
def remove_missing_coordinates (rows : List CoordRecord) : List CoordRecord :=
  rows.filter (fun r => r.latitude.isSome && r.longitude.isSome)

/-- Content of the FECHA HECHO column after fill_missing_values: either a
date object or the literal sentinel text No Reportado. -/
inductive FechaCell where
  | date (d : PyDate)
  | noRep
deriving DecidableEq

/-- Line 62 of app.py applied to one cell: fillna with the sentinel text. -/
def fillFecha (o : Option PyDate) : FechaCell :=
  match o with
  | some d => FechaCell.date d
  | none => FechaCell.noRep

/-- Line 66 of app.py applied to one cell: pd.to_datetime with errors equal
to coerce maps a date object to itself and the sentinel text to NaT. -/
def reparseFecha (c : FechaCell) : Option PyDate :=
  match c with
  | FechaCell.date d => some d
  | FechaCell.noRep => parseDate "No Reportado".data

/-- Line 67 of app.py applied to one cell: year, astype Int64, astype str,
then replace the missing value rendering with the sentinel label. -/
def yearString (o : Option PyDate) : Str :=
  let s := match o with
    | some d => natToStr d.year
    | none => "<NA>".data
  if s = "<NA>".data then "No Reportado".data else s

/-- Fecha to year composite of one cell through fill_missing_values and
extract_year_from_fecha_hecho. -/
def yearOfFecha (o : Option PyDate) : Str :=
  yearString (reparseFecha (fillFecha o))

/-- One record after fill_missing_values. -/
structure FilledRecord where
  departamento : Str
  municipio : Str
  codigoDane : Str
  armasMedios : Str
  fechaHecho : FechaCell
  genero : Str
  cantidad : Str
  latitude : Option ℚ
  longitude : Option ℚ
deriving DecidableEq

/-- fill_missing_values, lines 61 to 63 of app.py. -/
def fill_missing_values (rows : List CoordRecord) : List FilledRecord :=
  rows.map (fun r =>
    { departamento := r.departamento
      municipio := r.municipio
      codigoDane := r.codigoDane
      armasMedios := r.armasMedios
      fechaHecho := fillFecha r.fechaHecho
      genero := r.genero
      cantidad := r.cantidad
      latitude := r.latitude
      longitude := r.longitude })

/-- One record after extract_year_from_fecha_hecho: the re parsed fecha cell
plus the derived YEAR column. -/
structure YearRecord where
  departamento : Str
  municipio : Str
  codigoDane : Str
  armasMedios : Str
  fechaHecho : Option PyDate
  genero : Str
  cantidad : Str
  latitude : Option ℚ
  longitude : Option ℚ
  year : Str
deriving DecidableEq

/-- extract_year_from_fecha_hecho, lines 65 to 68 of app.py. -/
def extract_year_from_fecha_hecho (rows : List FilledRecord) : List YearRecord :=
  rows.map (fun r =>
    let reparsed := reparseFecha r.fechaHecho
    { departamento := r.departamento
      municipio := r.municipio
      codigoDane := r.codigoDane
      armasMedios := r.armasMedios
      fechaHecho := reparsed
      genero := r.genero
      cantidad := r.cantidad
      latitude := r.latitude
      longitude := r.longitude
      year := yearString reparsed })

/-- One record of the final working table merged_df: the FECHA HECHO column
has been dropped, only the derived YEAR remains. -/
structure FinalRecord where
  departamento : Str
  municipio : Str
  codigoDane : Str
  armasMedios : Str
  genero : Str
  cantidad : Str
  latitude : Option ℚ
  longitude : Option ℚ
  year : Str
deriving DecidableEq

/-- drop_fecha_hecho, lines 70 to 72 of app.py. -/
def drop_fecha_hecho (rows : List YearRecord) : List FinalRecord :=
  rows.map (fun r =>
    { departamento := r.departamento
      municipio := r.municipio
      codigoDane := r.codigoDane
      armasMedios := r.armasMedios
      genero := r.genero
      cantidad := r.cantidad
      latitude := r.latitude
      longitude := r.longitude
      year := r.year })

/-- The primary table enters the merge without LATITUDE and LONGITUDE
columns, so the suffixed reference columns keep the plain names and the
combine_first branch of merge_and_clean_coordinates sees no primary value;
this is modeled by all none primary coordinate cells, for which the merge
computes exactly the reference fill. -/
def addEmptyCoords (r : NormRecord) : CoordRecord :=
  { r with latitude := none, longitude := none }

/-- The startup pipeline of lines 79 to 102 of app.py: normalize, merge with
the reference coordinates, drop rows without coordinates, fill the missing
fecha cells, derive YEAR, drop FECHA HECHO.  The result is the process wide
base table merged_df. -/
def buildMergedDf (raw : List RawRecord) (ref : List RefEntry) : List FinalRecord :=
  drop_fecha_hecho (extract_year_from_fecha_hecho (fill_missing_values
    (remove_missing_coordinates
      (merge_and_clean_coordinates ((normalize_df raw).map addEmptyCoords) ref))))

/-- The dropdown value meaning that a filter is inactive. -/
def allCasesS : Str := "All Cases".data

/-- Grouping key of the fine aggregation of line 229 of app.py. -/
structure FineKey where
  departamento : Str
  municipio : Str
  latitude : Option ℚ
  longitude : Option ℚ
  genero : Str
  year : Str
deriving DecidableEq

/-- Grouping key of the location total aggregation of line 233 of app.py. -/
structure LocKey where
  departamento : Str
  municipio : Str
  year : Str
deriving DecidableEq

def fineKey (r : FinalRecord) : FineKey :=
  ⟨r.departamento, r.municipio, r.latitude, r.longitude, r.genero, r.year⟩

def locKey (r : FinalRecord) : LocKey :=
  ⟨r.departamento, r.municipio, r.year⟩

/-- Projection from the fine grouping key to the location key used by the
inner merge of line 237 of app.py. -/
def locOf (k : FineKey) : LocKey :=
  ⟨k.departamento, k.municipio, k.year⟩

/-- Line 220 and 221 of app.py: the year filter of the map callback. -/
def mapFilteredYear (year : Str) (l : List FinalRecord) : List FinalRecord :=
  if year = allCasesS then l else l.filter (fun r => decide (r.year = year))

/-- Line 223 and 224 of app.py: the municipality filter of the map
callback. -/
def mapFilteredMun (municipio : Str) (l : List FinalRecord) : List FinalRecord :=
  if municipio = allCasesS then l else l.filter (fun r => decide (r.municipio = municipio))

/-- Line 226 and 227 of app.py: the weapon filter of the map callback. -/
def mapFilteredArmas (armasMedios : Str) (l : List FinalRecord) : List FinalRecord :=
  if armasMedios = allCasesS then l else
    l.filter (fun r => decide (r.armasMedios = armasMedios))

/-- Lines 220 to 227 of app.py: conjunctive filtering of the copied base
table inside the map callback. -/
def mapFiltered (year municipio armasMedios : Str) (base : List FinalRecord) :
    List FinalRecord :=
  mapFilteredArmas armasMedios (mapFilteredMun municipio (mapFilteredYear year base))

/-- Lines 229 to 231 of app.py: group the filtered rows by department,
municipality, latitude, longitude, gender and year and count rows per
group. -/
def aggregatedData (year municipio armasMedios : Str) (base : List FinalRecord) :
    List (FineKey × Nat) :=
  (((mapFiltered year municipio armasMedios base).map fineKey).dedup).map
    (fun k => (k, (mapFiltered year municipio armasMedios base).countP
      (fun r => decide (fineKey r = k))))

/-- Lines 233 to 235 of app.py: group the same filtered rows by department,
municipality and year and count rows per location group. -/
def totalCasesByLocation (year municipio armasMedios : Str) (base : List FinalRecord) :
    List (LocKey × Nat) :=
  (((mapFiltered year municipio armasMedios base).map locKey).dedup).map
    (fun k => (k, (mapFiltered year municipio armasMedios base).countP
      (fun r => decide (locKey r = k))))

/-- One row of the joined aggregate rendered on the map. -/
structure GeoRow where
  key : FineKey
  totalCases : Nat
  totalCasesByLoc : Nat
  pctGender : ℚ
deriving DecidableEq

/-- update_map, lines 217 to 238 of app.py, up to the data frame handed to
the plotting library: filter, aggregate twice, inner merge on the location
key, then derive the percentage of gender column. -/
def update_map (year municipio armasMedios : Str) (base : List FinalRecord) :
    List GeoRow :=
  (aggregatedData year municipio armasMedios base).filterMap (fun kc =>
    ((totalCasesByLocation year municipio armasMedios base).find?
        (fun t => decide (t.1 = locOf kc.1))).map (fun t =>
      { key := kc.1
        totalCases := kc.2
        totalCasesByLoc := t.2
        pctGender := (kc.2 : ℚ) / (t.2 : ℚ) * 100 }))

/-- Closed form of one joined map aggregate row for the fine group key k of
the filtered table f: its own count, the count of its location group, and
the percentage share. -/
def geoRowOf (f : List FinalRecord) (k : FineKey) : GeoRow :=
  { key := k
    totalCases := f.countP (fun r => decide (fineKey r = k))
    totalCasesByLoc := f.countP (fun r => decide (locKey r = locOf k))
    pctGender := (f.countP (fun r => decide (fineKey r = k)) : ℚ) /
      (f.countP (fun r => decide (locKey r = locOf k)) : ℚ) * 100 }

/-- The figure produced by the chart and table callback: a bar chart of sums
per department, a pie chart with one slice per gender carrying the summed
quantity and its percentage of the filtered total, or the empty figure of
line 377 of app.py. -/
inductive CatFig where
  | deptBars (data : List (Str × ℚ))
  | genderPie (data : List (Str × ℚ × ℚ))
  | emptyPie
deriving DecidableEq

/-- A row of the dash table payload: the derived view of the filtered rows
with the genero column coalesced, the cantidad column coerced to a number,
and the coordinate columns dropped. -/
structure TableRow where
  departamento : Str
  municipio : Str
  codigoDane : Str
  armasMedios : Str
  genero : Str
  cantidad : ℚ
  year : Str
deriving DecidableEq

/-- Lines 350 and 353 of app.py applied to one filtered row: coalesce the
genero cell and coerce the cantidad cell, failures becoming zero. -/
def toTableRow (r : FinalRecord) : TableRow :=
  { departamento := r.departamento
    municipio := r.municipio
    codigoDane := r.codigoDane
    armasMedios := r.armasMedios
    genero := coalesceGenero r.genero
    cantidad := (parseNum r.cantidad).getD 0
    year := r.year }

/-- Lines 344 and 345 of app.py: the department filter of the chart and
table callback. -/
def catFilteredDept (selectedDepartment : Str) (l : List FinalRecord) :
    List FinalRecord :=
  if selectedDepartment = allCasesS then l else
    l.filter (fun r => decide (r.departamento = selectedDepartment))

/-- Lines 343 to 347 of app.py: conjunctive filtering of the copied base
table inside the chart and table callback. -/
def catFiltered (selectedDepartment selectedYear : Str) (base : List FinalRecord) :
    List FinalRecord :=
  if selectedYear = allCasesS then catFilteredDept selectedDepartment base else
    (catFilteredDept selectedDepartment base).filter
      (fun r => decide (r.year = selectedYear))

/-- The derived per invocation view of the filtered rows, lines 349 to 353
of app.py. -/
def catTableRows (selectedDepartment selectedYear : Str) (base : List FinalRecord) :
    List TableRow :=
  (catFiltered selectedDepartment selectedYear base).map toTableRow

/-- Line 357 of app.py: sum the coerced quantity per department. -/
def departmentData (selectedDepartment selectedYear : Str) (base : List FinalRecord) :
    List (Str × ℚ) :=
  (((catTableRows selectedDepartment selectedYear base).map TableRow.departamento).dedup).map
    (fun d => (d, (((catTableRows selectedDepartment selectedYear base).filter
      (fun r => decide (r.departamento = d))).map TableRow.cantidad).sum))

/-- Line 372 of app.py: sum the coerced quantity per gender. -/
def genderData (selectedDepartment selectedYear : Str) (base : List FinalRecord) :
    List (Str × ℚ) :=
  (((catTableRows selectedDepartment selectedYear base).map TableRow.genero).dedup).map
    (fun g => (g, (((catTableRows selectedDepartment selectedYear base).filter
      (fun r => decide (r.genero = g))).map TableRow.cantidad).sum))

/-- Line 375 of app.py: the filtered total is the sum of the per gender
sums. -/
def detailTotal (selectedDepartment selectedYear : Str) (base : List FinalRecord) : ℚ :=
  ((genderData selectedDepartment selectedYear base).map Prod.snd).sum

/-- update_graph_and_table, lines 341 to 397 of app.py: with both filters
inactive return the bar chart of department sums, otherwise return the
gender pie with percentages of the filtered total, or the explicit empty
result when that total is zero. -/
def update_graph_and_table (selectedDepartment selectedYear : Str)
    (base : List FinalRecord) : CatFig × List TableRow :=
  if selectedDepartment = allCasesS ∧ selectedYear = allCasesS then
    (CatFig.deptBars (departmentData selectedDepartment selectedYear base),
     catTableRows selectedDepartment selectedYear base)
  else
    if detailTotal selectedDepartment selectedYear base = 0 then (CatFig.emptyPie, [])
    else
      (CatFig.genderPie ((genderData selectedDepartment selectedYear base).map
        (fun gd =>
          (gd.1, gd.2, gd.2 / detailTotal selectedDepartment selectedYear base * 100))),
       catTableRows selectedDepartment selectedYear base)

/-- The process wide state shared by the callbacks: the single base table
built at startup.  Both callbacks start from merged_df.copy(), so every in
place rewrite they perform targets the copy; the state component of the
model records that no statement assigns to the module level table. -/
structure Store where
  merged_df : List FinalRecord
deriving DecidableEq

/-- The map callback as a state transformer: compute the figure data from a
copy of the base table and return the store as it was. -/
def update_map_callback (year municipio armasMedios : Str) (st : Store) :
    List GeoRow × Store :=
  let filtered_df := st.merged_df
  (update_map year municipio armasMedios filtered_df, st)

/-- The chart and table callback as a state transformer: compute the figure
and table payload from a copy of the base table and return the store as it
was. -/
def update_graph_and_table_callback (selectedDepartment selectedYear : Str)
    (st : Store) : (CatFig × List TableRow) × Store :=
  let filtered_df := st.merged_df
  (update_graph_and_table selectedDepartment selectedYear filtered_df, st)

/-! Concrete scenario data used by the end to end claims. -/

/-- Reference spreadsheet rows for the two municipalities of the end to end
scenario. -/
def refTable : List RefEntry :=
  [⟨"BOGOTA".data, "BOGOTA D.C".data, some (46/10 : ℚ), some (-741/10 : ℚ)⟩,
   ⟨"ANTIOQUIA".data, "MEDELLIN".data, some (62/10 : ℚ), some (-756/10 : ℚ)⟩]

/-- Bogota 2021 male record with weapon text no reporta. -/
def rawBogotaM : RawRecord :=
  ⟨"Bogota".data, "Bogota D.C".data, "11001".data, "no reporta".data,
   "2021-06-15".data, "Masculino".data, "1".data⟩

/-- Bogota 2021 female record with weapon text NO REPORTADO. -/
def rawBogotaF : RawRecord :=
  ⟨"Bogota".data, "Bogota D.C".data, "11001".data, "NO REPORTADO".data,
   "2021-07-01".data, "Femenino".data, "1".data⟩

/-- Antioquia Medellin 2020 male record with weapon text ARMA DE FUEGO. -/
def rawMedellin : RawRecord :=
  ⟨"Antioquia".data, "Medellin".data, "05001".data, "ARMA DE FUEGO".data,
   "2020-03-10".data, "Masculino".data, "1".data⟩

/-- The base table of the end to end scenario of the specification. -/
def scenarioBase : List FinalRecord :=
  buildMergedDf [rawBogotaM, rawBogotaF, rawMedellin] refTable

/-- Record whose gender cell normalizes to the misspelling NO REPORTA. -/
def rawGenderNR1 : RawRecord :=
  ⟨"Bogota".data, "Bogota D.C".data, "11001".data, "ARMA DE FUEGO".data,
   "2021-06-15".data, "no reporta".data, "1".data⟩

/-- Record whose gender cell normalizes to the canonical NO REPORTADO. -/
def rawGenderNR2 : RawRecord :=
  ⟨"Bogota".data, "Bogota D.C".data, "11001".data, "ARMA DE FUEGO".data,
   "2021-06-15".data, "no reportado".data, "1".data⟩

/-- Base table whose gender column carries two near duplicate spellings of
the not reported label. -/
def genderBase : List FinalRecord :=
  buildMergedDf [rawGenderNR1, rawGenderNR2] refTable

/-- True when the figure is the department sum bar chart. -/
def CatFig.isDeptBars : CatFig → Bool
  | CatFig.deptBars _ => true
  | _ => false

instance : Inhabited FinalRecord :=
  ⟨⟨[], [], [], [], [], [], none, none, []⟩⟩

instance : Inhabited FineKey := ⟨⟨[], [], none, none, [], []⟩⟩

instance : Inhabited GeoRow := ⟨⟨default, 0, 0, 0⟩⟩

/-- First row of the scenario base table. -/
def scenarioHead : FinalRecord := scenarioBase.headI

/-- First row of the map aggregate of the scenario base table with every
filter inactive. -/
def geoHead : GeoRow := (update_map allCasesS allCasesS allCasesS scenarioBase).headI

/-- Primary row used to exercise the coordinate precedence policy: latitude
present, longitude missing. -/
def c4row : CoordRecord :=
  { departamento := "A".data, municipio := "B".data, codigoDane := [],
    armasMedios := [], fechaHecho := none, genero := [], cantidad := [],
    latitude := some 1, longitude := none }

/-- Reference entry matching the key of the primary row above. -/
def c4ref : RefEntry := ⟨"A".data, "B".data, some 9, some 8⟩

/-- Merged output row of the single row merge above. -/
def c4out : CoordRecord := mergeRow c4row c4ref

/-- A character on which both modeled text transforms act as the
identity. -/
def charFixed (d : Char) : Bool :=
  (unidecodeTable.find? (fun p => decide (p.1 = d))).isNone &&
  (upperTable.find? (fun p => decide (p.1 = d))).isNone

/-! General lemmas about the character level transforms. -/

theorem charFixed_unidecode {d : Char} (h : charFixed d = true) : unidecodeChar d = d := by
  have h' := h
  simp only [charFixed, Bool.and_eq_true, Option.isNone_iff_eq_none] at h'
  obtain ⟨h1, _⟩ := h'
  unfold unidecodeChar
  rw [h1]

theorem charFixed_upper {d : Char} (h : charFixed d = true) : pyUpperChar d = d := by
  have h' := h
  simp only [charFixed, Bool.and_eq_true, Option.isNone_iff_eq_none] at h'
  obtain ⟨_, h2⟩ := h'
  unfold pyUpperChar
  rw [h2]

/-- The upper case image of every unidecode output is fixed by both
transforms. -/
theorem unidecodeTable_image_fixed :
    ∀ p ∈ unidecodeTable, charFixed (pyUpperChar p.2) = true := by decide

/-- Every upper table entry either starts from an accented character, which
is a unidecode key, or produces a character fixed by both transforms. -/
theorem upperTable_image_fixed :
    ∀ q ∈ upperTable,
      (unidecodeTable.find? (fun p => decide (p.1 = q.1))).isSome = true ∨
      charFixed q.2 = true := by decide

theorem normChar_fixed (c : Char) : charFixed (normChar c) = true := by
  unfold normChar unidecodeChar
  cases hD : unidecodeTable.find? (fun p => decide (p.1 = c)) with
  | some p => exact unidecodeTable_image_fixed p (List.mem_of_find?_eq_some hD)
  | none =>
    unfold pyUpperChar
    cases hU : upperTable.find? (fun p => decide (p.1 = c)) with
    | some q =>
      have hq := List.mem_of_find?_eq_some hU
      have hpq : q.1 = c := by simpa using List.find?_some hU
      rcases upperTable_image_fixed q hq with h | h
      · rw [hpq, hD] at h
        simp at h
      · exact h
    | none =>
      unfold charFixed
      rw [hD, hU]
      rfl

theorem normChar_idem (c : Char) : normChar (normChar c) = normChar c := by
  have h := normChar_fixed c
  have h1 := charFixed_unidecode h
  have h2 := charFixed_upper h
  show pyUpperChar (unidecodeChar (normChar c)) = normChar c
  rw [h1, h2]

theorem normalizeDepartamento_eq (s : Str) :
    normalizeDepartamento s = pyStrip (s.map normChar) := by
  unfold normalizeDepartamento
  rw [List.map_map]
  rfl

theorem normalizeMunicipio_eq (s : Str) :
    normalizeMunicipio s = bogotaFix (pyStrip (replaceCT (s.map normChar))) := by
  unfold normalizeMunicipio
  rw [List.map_map]
  rfl

/-! General lemmas about the strip model. -/

theorem dropWhile_dropWhile (p : Char → Bool) (l : Str) :
    (l.dropWhile p).dropWhile p = l.dropWhile p := by
  induction l with
  | nil => rfl
  | cons a t ih =>
    by_cases h : p a = true
    · rw [List.dropWhile_cons_of_pos h]
      exact ih
    · rw [List.dropWhile_cons_of_neg h, List.dropWhile_cons_of_neg h]

theorem rstripL_prefix (l : Str) : rstripL l <+: l := by
  have h := List.dropWhile_suffix (l := l.reverse) isSpaceChar
  have h2 := List.reverse_prefix.mpr h
  simpa using h2

theorem lstrip_rstrip (m : Str) (hm : m.dropWhile isSpaceChar = m) :
    (rstripL m).dropWhile isSpaceChar = rstripL m := by
  rcases hpre : rstripL m with _ | ⟨a, t⟩
  · rfl
  · have hp : (a :: t) <+: m := by
      rw [← hpre]
      exact rstripL_prefix m
    rcases hp with ⟨u, hu⟩
    have hm2 : m = a :: (t ++ u) := by
      rw [← hu]
      rfl
    have hpa : isSpaceChar a = false := by
      by_contra hcon
      simp only [Bool.not_eq_false] at hcon
      have heq : m.dropWhile isSpaceChar = (t ++ u).dropWhile isSpaceChar := by
        rw [hm2, List.dropWhile_cons_of_pos hcon]
      rw [hm] at heq
      have hlen : m.length ≤ (t ++ u).length := by
        calc m.length = ((t ++ u).dropWhile isSpaceChar).length := by rw [← heq]
          _ ≤ (t ++ u).length := (List.dropWhile_suffix isSpaceChar).sublist.length_le
      rw [hm2] at hlen
      simp only [List.length_cons] at hlen
      omega
    exact List.dropWhile_cons_of_neg (by simp [hpa])

theorem rstrip_rstrip (m : Str) : rstripL (rstripL m) = rstripL m := by
  unfold rstripL
  rw [List.reverse_reverse, dropWhile_dropWhile]

theorem pyStrip_idem (l : Str) : pyStrip (pyStrip l) = pyStrip l := by
  unfold pyStrip
  have hml : (lstripL l).dropWhile isSpaceChar = lstripL l :=
    dropWhile_dropWhile isSpaceChar l
  have h1 : lstripL (rstripL (lstripL l)) = rstripL (lstripL l) :=
    lstrip_rstrip (lstripL l) hml
  rw [h1, rstrip_rstrip]

theorem mem_pyStrip {a : Char} {l : Str} (h : a ∈ pyStrip l) : a ∈ l := by
  unfold pyStrip rstripL lstripL at h
  rw [List.mem_reverse] at h
  have h2 := (List.dropWhile_suffix isSpaceChar).sublist.subset h
  rw [List.mem_reverse] at h2
  exact (List.dropWhile_suffix isSpaceChar).sublist.subset h2

theorem map_id_of_mem (f : Char → Char) :
    ∀ (l : Str), (∀ a ∈ l, f a = a) → l.map f = l := by
  intro l h
  induction l with
  | nil => rfl
  | cons a t ih =>
    simp only [List.map_cons]
    rw [h a (by simp), ih (fun x hx => h x (by simp [hx]))]

/-! General lemmas about the marker removal model. -/

theorem replaceCT_cons_ne (c : Char) (rest : Str)
    (h : ∀ r, c = '(' → rest = 'C' :: 'T' :: ')' :: r → False) :
    replaceCT (c :: rest) = c :: replaceCT rest := by
  rw [replaceCT.eq_def]
  split
  · rename_i heq
    exact absurd heq (List.cons_ne_nil c rest)
  · rename_i r heq
    injection heq with h1 h2
    exact (h r h1 h2).elim
  · rename_i c2 rest2 hcond heq
    injection heq with h1 h2
    rw [h1, h2]

theorem containsCT_cons_ne (c : Char) (rest : Str)
    (h : ∀ r, c = '(' → rest = 'C' :: 'T' :: ')' :: r → False) :
    containsCT (c :: rest) = containsCT rest := by
  rw [containsCT.eq_def]
  split
  · rename_i heq
    exact absurd heq (List.cons_ne_nil c rest)
  · rename_i r heq
    injection heq with h1 h2
    exact (h r h1 h2).elim
  · rename_i c2 rest2 hcond heq
    injection heq with h1 h2
    rw [h2]

theorem mem_replaceCT {a : Char} : ∀ (l : Str), a ∈ replaceCT l → a ∈ l := by
  intro l
  induction l using replaceCT.induct with
  | case1 =>
    intro h
    exact h
  | case2 rest ih =>
    intro h
    have hred : replaceCT ('(' :: 'C' :: 'T' :: ')' :: rest) = replaceCT rest := rfl
    rw [hred] at h
    simp [ih h]
  | case3 c rest hne ih =>
    intro h
    rw [replaceCT_cons_ne c rest (fun r h1 h2 => hne r h1 h2)] at h
    rcases List.mem_cons.mp h with h | h
    · simp [h]
    · simp [ih h]

theorem replaceCT_of_not_containsCT :
    ∀ (l : Str), containsCT l = false → replaceCT l = l := by
  intro l
  induction l using replaceCT.induct with
  | case1 =>
    intro
    rfl
  | case2 rest ih =>
    intro h
    exact absurd h (by simp [containsCT])
  | case3 c rest hne ih =>
    intro h
    rw [containsCT_cons_ne c rest (fun r h1 h2 => hne r h1 h2)] at h
    rw [replaceCT_cons_ne c rest (fun r h1 h2 => hne r h1 h2), ih h]

theorem normalizeMunicipio_idem_of_noCT (s : Str)
    (h : containsCT (normalizeMunicipio s) = false) :
    normalizeMunicipio (normalizeMunicipio s) = normalizeMunicipio s := by
  by_cases hb : pyStrip (replaceCT (s.map normChar)) = "BOGOTA D.C.".data
  · have hv : normalizeMunicipio s = "BOGOTA D.C".data := by
      rw [normalizeMunicipio_eq, hb]
      rfl
    rw [hv]
    decide
  · have hv : normalizeMunicipio s = pyStrip (replaceCT (s.map normChar)) := by
      rw [normalizeMunicipio_eq]
      unfold bogotaFix
      rw [if_neg hb]
    rw [hv] at h
    rw [hv]
    have hmap : (pyStrip (replaceCT (s.map normChar))).map normChar =
        pyStrip (replaceCT (s.map normChar)) := by
      apply map_id_of_mem
      intro a ha
      have ha1 := mem_pyStrip ha
      have ha2 := mem_replaceCT _ ha1
      rcases List.mem_map.mp ha2 with ⟨c, hc, rfl⟩
      exact normChar_idem c
    rw [normalizeMunicipio_eq, hmap, replaceCT_of_not_containsCT _ h, pyStrip_idem]
    unfold bogotaFix
    rw [if_neg hb]

/-- Claim C3, counterexample: the municipality normalization is not
idempotent as stated: on the input (C(CT)T) the marker removal of the first
pass creates a fresh (CT) marker, which the second pass removes again. -/
theorem claim_C3_counterexample :
    ¬ (normalizeMunicipio (normalizeMunicipio ("(C(CT)T)".data)) =
       normalizeMunicipio ("(C(CT)T)".data)) := by decide

/-- Claim C3, amended: the department normalization, strip diacritics then
uppercase then trim, is idempotent on every input; the municipality
normalization is idempotent on every input whose first normalization no
longer contains the embedded (CT) marker. -/
theorem claim_C3_amended :
    (∀ s : Str,
      normalizeDepartamento (normalizeDepartamento s) = normalizeDepartamento s) ∧
    (∀ s : Str, containsCT (normalizeMunicipio s) = false →
      normalizeMunicipio (normalizeMunicipio s) = normalizeMunicipio s) := by
  constructor
  · intro s
    rw [normalizeDepartamento_eq, normalizeDepartamento_eq]
    have hmap : (pyStrip (s.map normChar)).map normChar = pyStrip (s.map normChar) := by
      apply map_id_of_mem
      intro a ha
      have ha1 := mem_pyStrip ha
      rcases List.mem_map.mp ha1 with ⟨c, hc, rfl⟩
      exact normChar_idem c
    rw [hmap, pyStrip_idem]
  · exact normalizeMunicipio_idem_of_noCT

/-- Claim C3, witness: the amended idempotence facts evaluated on the
accented inputs two spaces bogota and one space medellin with a lower case
marker. -/
theorem claim_C3_amended_witness :
    normalizeDepartamento (normalizeDepartamento ("  bogotá ".data)) =
      normalizeDepartamento ("  bogotá ".data) ∧
    containsCT (normalizeMunicipio (" medellín (ct) ".data)) = false ∧
    normalizeMunicipio (normalizeMunicipio (" medellín (ct) ".data)) =
      normalizeMunicipio (" medellín (ct) ".data) :=
  ⟨claim_C3_amended.1 _, by decide, claim_C3_amended.2 _ (by decide)⟩

/-- Claim C1, counterexample: on the three record scenario base table,
filtering by department ANTIOQUIA with the year filter inactive does not
produce a department sum bar chart; the callback takes the detail branch and
returns a gender pie. -/
theorem claim_C1_counterexample :
    CatFig.isDeptBars
      (update_graph_and_table ("ANTIOQUIA".data) allCasesS scenarioBase).1 = false := by
  decide

/-- Claim C1, amended: on the scenario base table, filtering by year 2021
with the department filter inactive yields gender percentages of fifty for
each gender, and filtering by department ANTIOQUIA with the year filter
inactive yields the gender detail view with a single male slice at one
hundred percent, not a department sum bar. -/
theorem claim_C1_amended :
    (update_graph_and_table allCasesS ("2021".data) scenarioBase).1 =
      CatFig.genderPie [("MASCULINO".data, 1, 50), ("FEMENINO".data, 1, 50)] ∧
    (update_graph_and_table ("ANTIOQUIA".data) allCasesS scenarioBase).1 =
      CatFig.genderPie [("MASCULINO".data, 1, 100)] := by
  decide

/-- Claim C2, counterexample: the map callback groups by the raw gender
column, so for a base table whose gender cells normalize to NO REPORTA and
NO REPORTADO the geo aggregate output contains both spellings as distinct
group keys. -/
theorem claim_C2_counterexample :
    ("NO REPORTA".data ∈
      (update_map allCasesS allCasesS allCasesS genderBase).map
        (fun o => o.key.genero)) ∧
    ("NO REPORTADO".data ∈
      (update_map allCasesS allCasesS allCasesS genderBase).map
        (fun o => o.key.genero)) ∧
    "NO REPORTA".data ≠ "NO REPORTADO".data := by
  decide

theorem normalizeArmas_ne (s : Str) :
    normalizeArmas s ≠ "NO REPOTADO".data ∧ normalizeArmas s ≠ "NO REPORTA".data := by
  unfold normalizeArmas
  by_cases h : upperStrip s = "NO REPOTADO".data ∨ upperStrip s = "NO REPORTA".data
  · rw [if_pos h]
    exact ⟨by decide, by decide⟩
  · rw [if_neg h]
    push_neg at h
    exact h

theorem coalesceGenero_ne (g : Str) :
    coalesceGenero g ≠ "NO REPOTADO".data ∧ coalesceGenero g ≠ "NO REPORTA".data := by
  unfold coalesceGenero
  by_cases h : g = "NO REPOTADO".data ∨ g = "NO REPORTA".data
  · rw [if_pos h]
    exact ⟨by decide, by decide⟩
  · rw [if_neg h]
    push_neg at h
    exact h

/-- Claim C2, amended: the weapon means column is coalesced during
normalization, before every aggregation, so the base table never carries the
misspelled labels there; the gender column is coalesced per invocation
inside the chart and table callback, so category aggregate gender group keys
never carry the misspelled labels.  The map callback performs no gender
coalescing, see the counterexample. -/
theorem claim_C2_amended :
    (∀ (df : List RawRecord) (r : NormRecord), r ∈ normalize_df df →
      r.armasMedios ≠ "NO REPOTADO".data ∧ r.armasMedios ≠ "NO REPORTA".data) ∧
    (∀ (d y : Str) (base : List FinalRecord) (p : Str × ℚ),
      p ∈ genderData d y base →
      p.1 ≠ "NO REPOTADO".data ∧ p.1 ≠ "NO REPORTA".data) := by
  constructor
  · intro df r hr
    rcases List.mem_map.mp hr with ⟨raw, _, rfl⟩
    exact normalizeArmas_ne raw.armasMedios
  · intro d y base p hp
    unfold genderData at hp
    rcases List.mem_map.mp hp with ⟨g, hg, rfl⟩
    have hg2 := List.mem_dedup.mp hg
    rcases List.mem_map.mp hg2 with ⟨row, hrow, hrg⟩
    unfold catTableRows at hrow
    rcases List.mem_map.mp hrow with ⟨fr, _, rfl⟩
    rw [← hrg]
    exact coalesceGenero_ne fr.genero

/-- Claim C2, witness: the amended coalescing facts evaluated on the first
scenario record and on the male fifty percent gender group of the scenario
table. -/
theorem claim_C2_amended_witness :
    ((normalizeRecord rawBogotaM).armasMedios ≠ "NO REPOTADO".data ∧
     (normalizeRecord rawBogotaM).armasMedios ≠ "NO REPORTA".data) ∧
    (("MASCULINO".data, (1 : ℚ)).1 ≠ "NO REPOTADO".data ∧
     ("MASCULINO".data, (1 : ℚ)).1 ≠ "NO REPORTA".data) :=
  ⟨claim_C2_amended.1 [rawBogotaM] (normalizeRecord rawBogotaM) (by decide),
   claim_C2_amended.2 allCasesS ("2021".data) scenarioBase ("MASCULINO".data, (1 : ℚ))
     (by decide)⟩

/-- Claim C4, confirmed: every output row of the coordinate merge comes from
a primary row, either unchanged when the reference table has no entry for
its key, or produced from a matching reference entry with the first non
missing wins policy applied independently to latitude and longitude. -/
theorem claim_C4 (rows : List CoordRecord) (ref : List RefEntry) (o : CoordRecord)
    (ho : o ∈ merge_and_clean_coordinates rows ref) :
    ∃ r ∈ rows,
      (refMatches ref r = [] ∧ o = r) ∨
      ∃ e ∈ refMatches ref r,
        o.latitude = (if r.latitude.isSome then r.latitude else e.latitude) ∧
        o.longitude = (if r.longitude.isSome then r.longitude else e.longitude) := by
  unfold merge_and_clean_coordinates at ho
  rcases List.mem_flatMap.mp ho with ⟨r, hr, hor⟩
  refine ⟨r, hr, ?_⟩
  cases hm : refMatches ref r with
  | nil =>
    rw [hm] at hor
    left
    exact ⟨rfl, List.mem_singleton.mp hor⟩
  | cons e es =>
    rw [hm] at hor
    right
    rcases List.mem_map.mp hor with ⟨e2, he2, rfl⟩
    exact ⟨e2, he2, rfl, rfl⟩

/-- Claim C4, witness: the policy evaluated on a one row merge whose primary
row has a latitude but no longitude. -/
theorem claim_C4_witness :
    ∃ r ∈ [c4row],
      (refMatches [c4ref] r = [] ∧ c4out = r) ∨
      ∃ e ∈ refMatches [c4ref] r,
        c4out.latitude = (if r.latitude.isSome then r.latitude else e.latitude) ∧
        c4out.longitude = (if r.longitude.isSome then r.longitude else e.longitude) :=
  claim_C4 [c4row] [c4ref] c4out (by decide)

/-- Claim C5, confirmed: every row of the final working table produced by
the startup pipeline has a present latitude and a present longitude; the
rows still missing a coordinate after the merge are removed by the dropna
step. -/
theorem claim_C5 (raw : List RawRecord) (ref : List RefEntry) (r : FinalRecord)
    (hr : r ∈ buildMergedDf raw ref) :
    r.latitude.isSome = true ∧ r.longitude.isSome = true := by
  unfold buildMergedDf drop_fecha_hecho extract_year_from_fecha_hecho
    fill_missing_values at hr
  rcases List.mem_map.mp hr with ⟨ry, hry, rfl⟩
  rcases List.mem_map.mp hry with ⟨rf, hrf, rfl⟩
  rcases List.mem_map.mp hrf with ⟨rc, hrc, rfl⟩
  unfold remove_missing_coordinates at hrc
  obtain ⟨_, hcond⟩ := List.mem_filter.mp hrc
  rw [Bool.and_eq_true] at hcond
  exact ⟨hcond.1, hcond.2⟩

/-- Claim C5, witness: the invariant evaluated on the first row of the
scenario base table. -/
theorem claim_C5_witness :
    scenarioHead.latitude.isSome = true ∧ scenarioHead.longitude.isSome = true :=
  claim_C5 [rawBogotaM, rawBogotaF, rawMedellin] refTable scenarioHead (by decide)

theorem digitChar_isDigit (n : Nat) : (digitChar n).isDigit = true := by
  unfold digitChar
  rcases (by omega :
      n % 10 = 0 ∨ n % 10 = 1 ∨ n % 10 = 2 ∨ n % 10 = 3 ∨ n % 10 = 4 ∨
      n % 10 = 5 ∨ n % 10 = 6 ∨ n % 10 = 7 ∨ n % 10 = 8 ∨ n % 10 = 9) with
    h | h | h | h | h | h | h | h | h | h <;> rw [h] <;> decide

theorem natToStrAux_digits :
    ∀ (fuel n : Nat), ∀ c ∈ natToStrAux fuel n, c.isDigit = true := by
  intro fuel
  induction fuel with
  | zero =>
    intro n c h
    simp [natToStrAux] at h
  | succ f ih =>
    intro n c h
    unfold natToStrAux at h
    by_cases hn : n < 10
    · rw [if_pos hn] at h
      rcases List.mem_singleton.mp h with rfl
      exact digitChar_isDigit n
    · rw [if_neg hn] at h
      rcases List.mem_append.mp h with h | h
      · exact ih _ _ h
      · rcases List.mem_singleton.mp h with rfl
        exact digitChar_isDigit (n % 10)

theorem natToStr_ne_NA (n : Nat) : natToStr n ≠ "<NA>".data := by
  intro h
  have h2 : ('<' : Char) ∈ natToStr n := by
    rw [h]
    decide
  exact absurd (natToStrAux_digits 6 n '<' h2) (by decide)

/-- Claim C6, confirmed: when the occurrence date cell parses as a calendar
date the derived YEAR cell is the year rendered as text, and when it does
not parse, including the sentinel text substituted for missing dates, the
derived YEAR cell is exactly No Reportado. -/
theorem claim_C6 (rr : RawRecord) :
    (∀ d : PyDate, parseDate rr.fechaHecho = some d →
      yearOfFecha (normalizeRecord rr).fechaHecho = natToStr d.year) ∧
    (parseDate rr.fechaHecho = none →
      yearOfFecha (normalizeRecord rr).fechaHecho = "No Reportado".data) := by
  constructor
  · intro d h
    have hf : (normalizeRecord rr).fechaHecho = some d := h
    rw [hf]
    show (if natToStr d.year = "<NA>".data then "No Reportado".data else natToStr d.year)
      = natToStr d.year
    rw [if_neg (natToStr_ne_NA d.year)]
  · intro h
    have hf : (normalizeRecord rr).fechaHecho = none := h
    rw [hf]
    decide

/-- Claim C6, witness: the year extraction evaluated on the scenario record
dated 2021-06-15 and on a record with an unparseable date text. -/
theorem claim_C6_witness :
    parseDate rawBogotaM.fechaHecho = some ⟨2021, 6, 15⟩ ∧
    yearOfFecha (normalizeRecord rawBogotaM).fechaHecho = "2021".data ∧
    parseDate (RawRecord.fechaHecho ⟨[], [], [], [], "sin fecha".data, [], []⟩) = none ∧
    yearOfFecha
      (normalizeRecord ⟨[], [], [], [], "sin fecha".data, [], []⟩).fechaHecho =
      "No Reportado".data :=
  ⟨by decide, (claim_C6 rawBogotaM).1 ⟨2021, 6, 15⟩ (by decide), by decide,
   (claim_C6 ⟨[], [], [], [], "sin fecha".data, [], []⟩).2 (by decide)⟩

/-- Claim C7, confirmed: in detail mode, whenever the filtered quantity
total computed at line 375 of app.py is zero the callback returns the
explicit empty figure and empty table payload, so the percentage division is
never reached with a zero divisor. -/
theorem claim_C7 (selectedDepartment selectedYear : Str) (base : List FinalRecord)
    (hmode : ¬ (selectedDepartment = allCasesS ∧ selectedYear = allCasesS))
    (hz : detailTotal selectedDepartment selectedYear base = 0) :
    update_graph_and_table selectedDepartment selectedYear base =
      (CatFig.emptyPie, []) := by
  unfold update_graph_and_table
  rw [if_neg hmode, if_pos hz]

/-- Claim C7, witness: the empty result evaluated on the scenario base table
with the department ANTIOQUIA and the year 1999, a combination matching no
record. -/
theorem claim_C7_witness :
    update_graph_and_table ("ANTIOQUIA".data) ("1999".data) scenarioBase =
      (CatFig.emptyPie, []) :=
  claim_C7 ("ANTIOQUIA".data) ("1999".data) scenarioBase (by decide) (by decide)

/-- Claim C9, confirmed: both callbacks leave the shared base table exactly
as it was, their results are a function of the filter arguments and the base
table only, and interleaving the two callbacks in either order does not
change the result either one produces for fixed arguments. -/
theorem claim_C9 (st : Store) (year municipio armasMedios d y d2 y2 : Str) :
    (update_map_callback year municipio armasMedios st).2 = st ∧
    (update_graph_and_table_callback d y st).2 = st ∧
    (update_map_callback year municipio armasMedios
        ((update_graph_and_table_callback d2 y2 st).2)).1 =
      (update_map_callback year municipio armasMedios st).1 ∧
    (update_graph_and_table_callback d y
        ((update_map_callback year municipio armasMedios st).2)).1 =
      (update_graph_and_table_callback d y st).1 ∧
    (update_map_callback year municipio armasMedios st).1 =
      update_map year municipio armasMedios st.merged_df ∧
    (update_graph_and_table_callback d y st).1 =
      update_graph_and_table d y st.merged_df :=
  ⟨rfl, rfl, rfl, rfl, rfl, rfl⟩

/-! General lemmas about grouping, counting and joining, used for the map
aggregate. -/

theorem find?_keyed {κ β : Type} [DecidableEq κ] (g : κ → β) :
    ∀ (ks : List κ) (L : κ), L ∈ ks →
      (ks.map (fun k => (k, g k))).find? (fun t => decide (t.1 = L)) = some (L, g L) := by
  intro ks
  induction ks with
  | nil =>
    intro L h
    cases h
  | cons k ks ih =>
    intro L h
    by_cases hk : k = L
    · subst hk
      rw [List.map_cons, List.find?_cons_of_pos _ (by simp)]
    · rw [List.map_cons, List.find?_cons_of_neg _ (by simp [hk])]
      rcases List.mem_cons.mp h with h1 | h1
      · exact absurd h1.symm hk
      · exact ih L h1

theorem sum_map_add_nat {κ : Type} (g h : κ → Nat) :
    ∀ (l : List κ), (l.map (fun k => g k + h k)).sum = (l.map g).sum + (l.map h).sum := by
  intro l
  induction l with
  | nil => rfl
  | cons a t ih =>
    simp only [List.map_cons, List.sum_cons, ih]
    omega

theorem sum_map_ite_nat {κ : Type} [DecidableEq κ] (x : κ) :
    ∀ (l : List κ), l.Nodup →
      (l.map (fun k => if x = k then 1 else 0)).sum = if x ∈ l then 1 else 0 := by
  intro l
  induction l with
  | nil =>
    intro
    rfl
  | cons a t ih =>
    intro hnd
    rw [List.map_cons, List.sum_cons, ih (List.nodup_cons.mp hnd).2]
    by_cases hx : x = a
    · subst hx
      rw [if_pos rfl, if_pos (List.mem_cons_self x t), if_neg (List.nodup_cons.mp hnd).1]
    · rw [if_neg hx]
      by_cases hxt : x ∈ t
      · rw [if_pos hxt, if_pos (List.mem_cons.mpr (Or.inr hxt))]
      · rw [if_neg hxt, if_neg (by simp [hx, hxt])]

theorem sum_countP_dedup {α κ : Type} [DecidableEq κ] (f : α → κ) (p : κ → Bool) :
    ∀ (l : List α),
      ((((l.map f).dedup.filter p).map
        (fun k => l.countP (fun x => decide (f x = k)))).sum)
        = l.countP (fun x => p (f x)) := by
  intro l
  induction l with
  | nil => rfl
  | cons a t ih =>
    rw [List.map_cons, List.countP_cons]
    have hcnt : ∀ (keys : List κ),
        (keys.map (fun k => (a :: t).countP (fun x => decide (f x = k)))).sum
        = (keys.map (fun k => t.countP (fun x => decide (f x = k)))).sum
          + (keys.map (fun k => if f a = k then 1 else 0)).sum := by
      intro keys
      rw [← sum_map_add_nat]
      apply congrArg List.sum
      apply List.map_congr_left
      intro k hk
      rw [List.countP_cons]
      simp only [decide_eq_true_eq]
    by_cases hmem : f a ∈ t.map f
    · rw [List.dedup_cons_of_mem hmem, hcnt, ih,
        sum_map_ite_nat (f a) _ ((List.nodup_dedup (t.map f)).filter p)]
      have hiff : (f a ∈ ((t.map f).dedup.filter p)) ↔ (p (f a) = true) := by
        rw [List.mem_filter, List.mem_dedup]
        exact ⟨fun h => h.2, fun h => ⟨hmem, h⟩⟩
      by_cases hp : p (f a) = true
      · rw [if_pos (hiff.mpr hp), if_pos hp]
      · rw [if_neg (fun hmem2 => hp (hiff.mp hmem2)), if_neg hp]
    · rw [List.dedup_cons_of_not_mem hmem, List.filter_cons]
      have h0 : t.countP (fun x => decide (f x = f a)) = 0 := by
        rw [List.countP_eq_zero]
        intro x hx
        simp only [decide_eq_true_eq]
        intro heq
        exact hmem (heq ▸ List.mem_map_of_mem f hx)
      have hnotin : f a ∉ (t.map f).dedup.filter p :=
        fun hmem2 => hmem (List.mem_dedup.mp (List.mem_filter.mp hmem2).1)
      by_cases hp : p (f a) = true
      · rw [if_pos hp, hcnt, List.map_cons, List.sum_cons, h0, ih,
          sum_map_ite_nat (f a) _
            (List.nodup_cons.mpr ⟨hnotin, (List.nodup_dedup (t.map f)).filter p⟩),
          if_pos (List.mem_cons_self _ _), if_pos hp]
        omega
      · rw [if_neg hp, hcnt, ih,
          sum_map_ite_nat (f a) _ ((List.nodup_dedup (t.map f)).filter p),
          if_neg hnotin, if_neg hp]

theorem filterMap_eq_map {α β : Type} (F : α → Option β) (G : α → β) :
    ∀ (l : List α), (∀ x ∈ l, F x = some (G x)) → l.filterMap F = l.map G := by
  intro l h
  induction l with
  | nil => rfl
  | cons a t ih =>
    rw [List.filterMap_cons, h a (by simp), List.map_cons,
      ih (fun x hx => h x (by simp [hx]))]

/-- The joined map aggregate in closed form: the inner merge of line 237 of
app.py always succeeds because every fine group key has its location key in
the location total table, so the output carries one row per fine group. -/
theorem update_map_eq (year municipio armasMedios : Str) (base : List FinalRecord) :
    update_map year municipio armasMedios base =
      (((mapFiltered year municipio armasMedios base).map fineKey).dedup).map
        (geoRowOf (mapFiltered year municipio armasMedios base)) := by
  unfold update_map aggregatedData
  rw [List.filterMap_map]
  apply filterMap_eq_map
  intro k hk
  have hkm := List.mem_dedup.mp hk
  rcases List.mem_map.mp hkm with ⟨r, hr, hrk⟩
  have hloc : locOf k ∈ ((mapFiltered year municipio armasMedios base).map locKey) := by
    rw [← hrk]
    exact List.mem_map_of_mem locKey hr
  have hfind := find?_keyed
    (fun L => (mapFiltered year municipio armasMedios base).countP
      (fun r => decide (locKey r = L)))
    (((mapFiltered year municipio armasMedios base).map locKey).dedup)
    (locOf k) (List.mem_dedup.mpr hloc)
  show ((totalCasesByLocation year municipio armasMedios base).find?
      (fun t => decide (t.1 = locOf k))).map _ = some (geoRowOf _ k)
  unfold totalCasesByLocation
  rw [hfind]
  rfl

/-- Claim C8, confirmed: in geo aggregate mode, for every filter combination
and every location group present in the output, the percentage shares of the
fine sub groups of that location group add up to exactly one hundred in
rational arithmetic. -/
theorem claim_C8 (year municipio armasMedios : Str) (base : List FinalRecord)
    (L : LocKey)
    (hL : L ∈ (update_map year municipio armasMedios base).map (fun o => locOf o.key)) :
    (((update_map year municipio armasMedios base).filter
        (fun o => decide (locOf o.key = L))).map GeoRow.pctGender).sum = 100 := by
  rw [update_map_eq] at hL ⊢
  set f := mapFiltered year municipio armasMedios base with hf
  rcases List.mem_map.mp hL with ⟨o, ho, hOL⟩
  rcases List.mem_map.mp ho with ⟨k0, hk0, rfl⟩
  have hk0L : locOf k0 = L := hOL
  have hk0m := List.mem_dedup.mp hk0
  rcases List.mem_map.mp hk0m with ⟨r0, hr0, hr0k⟩
  have hT1 : 0 < f.countP (fun r => decide (locKey r = L)) := by
    rw [List.countP_pos_iff]
    refine ⟨r0, hr0, ?_⟩
    simp only [decide_eq_true_eq]
    rw [← hk0L, ← hr0k]
    rfl
  rw [List.filter_map, List.map_map]
  have hfq : List.filter ((fun o => decide (locOf o.key = L)) ∘ geoRowOf f)
      ((f.map fineKey).dedup)
      = List.filter (fun k => decide (locOf k = L)) ((f.map fineKey).dedup) :=
    List.filter_congr (fun k _ => rfl)
  rw [hfq]
  have hmapc : List.map (GeoRow.pctGender ∘ geoRowOf f)
      (List.filter (fun k => decide (locOf k = L)) ((f.map fineKey).dedup))
      = List.map (fun k => ((f.countP (fun r => decide (fineKey r = k)) : ℚ)) *
          (100 / ((f.countP (fun r => decide (locKey r = L)) : ℕ) : ℚ)))
        (List.filter (fun k => decide (locOf k = L)) ((f.map fineKey).dedup)) := by
    apply List.map_congr_left
    intro k hk
    have hkL : locOf k = L := by
      have h2 := (List.mem_filter.mp hk).2
      simpa using h2
    show ((f.countP (fun r => decide (fineKey r = k)) : ℚ)) /
        ((f.countP (fun r => decide (locKey r = locOf k)) : ℚ)) * 100 = _
    rw [hkL]
    ring
  rw [hmapc, List.sum_map_mul_right]
  have hcast : (List.map (fun k => ((f.countP (fun r => decide (fineKey r = k)) : ℕ) : ℚ))
      (List.filter (fun k => decide (locOf k = L)) ((f.map fineKey).dedup))).sum
      = (((List.map (fun k => f.countP (fun r => decide (fineKey r = k)))
        (List.filter (fun k => decide (locOf k = L)) ((f.map fineKey).dedup))).sum : ℕ) : ℚ) := by
    rw [Nat.cast_list_sum, List.map_map]
    rfl
  rw [hcast]
  have hsum : (List.map (fun k => f.countP (fun x => decide (fineKey x = k)))
      (List.filter (fun k => decide (locOf k = L)) ((f.map fineKey).dedup))).sum
      = f.countP (fun r => decide (locKey r = L)) :=
    sum_countP_dedup fineKey (fun k => decide (locOf k = L)) f
  rw [hsum]
  have hTne : ((f.countP (fun r => decide (locKey r = L)) : ℕ) : ℚ) ≠ 0 :=
    Nat.cast_ne_zero.mpr (Nat.pos_iff_ne_zero.mp hT1)
  field_simp

/-- Claim C8, witness: the shares of the 2021 Bogota location group of the
scenario base table sum to one hundred. -/
theorem claim_C8_witness :
    (((update_map allCasesS allCasesS allCasesS scenarioBase).filter
        (fun o => decide (locOf o.key =
          ⟨"BOGOTA".data, "BOGOTA D.C".data, "2021".data⟩))).map GeoRow.pctGender).sum
      = 100 :=
  claim_C8 allCasesS allCasesS allCasesS scenarioBase
    ⟨"BOGOTA".data, "BOGOTA D.C".data, "2021".data⟩ (by decide)

/-- Claim C10, confirmed: every output row of the map aggregate has a
location total of at least one, its own count never exceeds the location
total, and the percentage share lies in the half open interval from zero
exclusive to one hundred inclusive, so the share division never divides by
zero. -/
theorem claim_C10 (year municipio armasMedios : Str) (base : List FinalRecord)
    (o : GeoRow) (ho : o ∈ update_map year municipio armasMedios base) :
    1 ≤ o.totalCasesByLoc ∧ o.totalCases ≤ o.totalCasesByLoc ∧
      0 < o.pctGender ∧ o.pctGender ≤ 100 := by
  rw [update_map_eq] at ho
  set f := mapFiltered year municipio armasMedios base with hf
  rcases List.mem_map.mp ho with ⟨k, hk, rfl⟩
  have hkm := List.mem_dedup.mp hk
  rcases List.mem_map.mp hkm with ⟨r, hr, hrk⟩
  have hc : 0 < f.countP (fun x => decide (fineKey x = k)) := by
    rw [List.countP_pos_iff]
    exact ⟨r, hr, by simp [hrk]⟩
  have hmono : f.countP (fun x => decide (fineKey x = k)) ≤
      f.countP (fun x => decide (locKey x = locOf k)) := by
    apply List.countP_mono_left
    intro x hx hfx
    simp only [decide_eq_true_eq] at hfx ⊢
    rw [← hfx]
    rfl
  have h1 : 1 ≤ f.countP (fun x => decide (locKey x = locOf k)) := le_trans hc hmono
  have hcq : (0 : ℚ) < (f.countP (fun x => decide (fineKey x = k)) : ℚ) := by
    exact_mod_cast hc
  have hTq : (0 : ℚ) < (f.countP (fun x => decide (locKey x = locOf k)) : ℚ) := by
    exact_mod_cast lt_of_lt_of_le hc hmono
  refine ⟨h1, hmono, ?_, ?_⟩
  · show (0 : ℚ) < (f.countP (fun x => decide (fineKey x = k)) : ℚ) /
      (f.countP (fun x => decide (locKey x = locOf k)) : ℚ) * 100
    exact mul_pos (div_pos hcq hTq) (by norm_num)
  · show (f.countP (fun x => decide (fineKey x = k)) : ℚ) /
      (f.countP (fun x => decide (locKey x = locOf k)) : ℚ) * 100 ≤ 100
    have hd1 : (f.countP (fun x => decide (fineKey x = k)) : ℚ) /
        (f.countP (fun x => decide (locKey x = locOf k)) : ℚ) ≤ 1 :=
      (div_le_one hTq).mpr (by exact_mod_cast hmono)
    calc (f.countP (fun x => decide (fineKey x = k)) : ℚ) /
        (f.countP (fun x => decide (locKey x = locOf k)) : ℚ) * 100
        ≤ 1 * 100 := mul_le_mul_of_nonneg_right hd1 (by norm_num)
      _ = 100 := by norm_num

/-- Claim C10, witness: the bounds evaluated on the first map aggregate row
of the scenario base table. -/
theorem claim_C10_witness :
    1 ≤ geoHead.totalCasesByLoc ∧ geoHead.totalCases ≤ geoHead.totalCasesByLoc ∧
      0 < geoHead.pctGender ∧ geoHead.pctGender ≤ 100 :=
  claim_C10 allCasesS allCasesS allCasesS scenarioBase geoHead (by decide)

end Socrata
